import Mathlib

/-!
Verification of the NEA_bot chat front-end (TAUROS).

Shallow embedding of the conversational request lifecycle:
the refactored ChatScreen component (its handleSend handler and component
state) from src/src/screens/SettingsScreen.tsx, and the API layer
(chatAPI.sendMessage, APIError) from src/SettingsScreen.tsx.old.
Strings are Lean strings (lists of characters); clock readings
(Date.now / new Date) are natural-number milliseconds supplied as
explicit parameters; the network is an explicit outcome parameter.
-/

set_option maxHeartbeats 1000000

namespace NEABot

/-- Whitespace predicate modelling the character class removed by
JavaScript String.prototype.trim (restricted to the ASCII whitespace
actually relevant to the claims). -/
def jsWs (c : Char) : Bool := c.isWhitespace

/-- Drop leading and trailing whitespace from a character list. -/
def trimList (l : List Char) : List Char :=
  ((l.dropWhile jsWs).reverse.dropWhile jsWs).reverse

/-- Model of the source expression message.trim(). -/
def jsTrim (s : String) : String := ⟨trimList s.data⟩

/-- Model of the JavaScript expression s || d for strings: the empty
string is the only falsy string and selects the default. -/
def jsOrStr (s d : String) : String := if s = "" then d else s

/-- Model of o || d where o is an optional string field of a parsed JSON
body: an absent field (undefined) and the empty string are both falsy. -/
def jsOrOpt (o : Option String) (d : String) : String :=
  match o with
  | none => d
  | some s => jsOrStr s d

/-- Decimal digits of n, least significant first, computed with explicit
fuel so that the definition is structurally recursive. -/
def toDigitsRevFuel : Nat → Nat → List Nat
  | 0, _ => []
  | _ + 1, 0 => []
  | fuel + 1, n + 1 => ((n + 1) % 10) :: toDigitsRevFuel fuel ((n + 1) / 10)

/-- Decimal digits of n, least significant first (n itself is enough
fuel, since the value shrinks by a factor of ten each step). -/
def toDigitsRev (n : Nat) : List Nat := toDigitsRevFuel n n

/-- Model of JavaScript Number.prototype.toString for the nonnegative
integers produced by Date.now(): usual decimal notation. -/
def natToString (n : Nat) : String :=
  ⟨if n = 0 then ['0'] else (toDigitsRev n).reverse.map Nat.digitChar⟩

/-- Numeric value of a least-significant-first decimal digit list
(used to invert toDigitsRev). -/
def digitsVal (l : List Nat) : Nat := l.foldr (fun d acc => acc * 10 + d) 0

/-- APIError from src/SettingsScreen.tsx.old (the api.ts utility):
message, statusCode (0 when the failure carried no HTTP status), and the
optional axios code string. -/
structure APIError where
  message : String
  statusCode : Nat
  code : Option String
deriving Repr, DecidableEq

namespace APIError

/-- Getter isTimeoutError: the axios code is ECONNABORTED. -/
def isTimeoutError (e : APIError) : Bool := e.code == some "ECONNABORTED"

/-- Getter isNetworkError: statusCode === 0 || !statusCode; on natural
numbers both disjuncts say the status code is zero. -/
def isNetworkError (e : APIError) : Bool := e.statusCode == 0

/-- Getter isServerError: statusCode >= 500. -/
def isServerError (e : APIError) : Bool := decide (500 ≤ e.statusCode)

/-- Getter isClientError: statusCode >= 400 && statusCode < 500. -/
def isClientError (e : APIError) : Bool :=
  decide (400 ≤ e.statusCode) && decide (e.statusCode < 500)

/-- getUserMessage: the priority cascade of user-facing messages. -/
def getUserMessage (e : APIError) : String :=
  if e.isTimeoutError then "Timeout della richiesta. Riprova."
  else if e.isNetworkError then "Impossibile connettersi al server."
  else if e.isServerError then "Errore interno del server."
  else if e.isClientError then "Richiesta non valida."
  else "Errore nel contatto con TAUROS."

end APIError

/-- ChatResponse from the api utility: { response: string, timestamp?:
string }. The response field is optional here because the TypeScript
annotation is not enforced at runtime and the code guards against a
missing or empty field with the || placeholder expression. -/
structure ChatResponse where
  response : Option String
  timestamp : Option String
deriving Repr, DecidableEq

/-- Outcome of the underlying axios POST /chat call as observed inside
chatAPI.sendMessage: a resolved body, an axios error (message, optional
HTTP status, optional axios code such as ECONNABORTED), or a non-axios
throw. -/
inductive NetworkOutcome where
  | success (data : ChatResponse)
  | axiosError (message : String) (status : Option Nat) (code : Option String)
  | otherError
deriving Repr, DecidableEq

/-- What chatAPI.sendMessage does for a given network outcome: either
return the response body normally, or raise a JavaScript exception,
modelled explicitly by the thrown constructor (sendMessage only ever
throws APIError values). -/
inductive SendOutcome where
  | returned (data : ChatResponse)
  | thrown (e : APIError)
deriving Repr, DecidableEq

/-- Whether the operation raised an exception. -/
def SendOutcome.isThrown : SendOutcome → Bool
  | .returned _ => false
  | .thrown _ => true

namespace chatAPI

/-- chatAPI.sendMessage: on a resolved call, return response.data; on an
axios error, throw new APIError(error.message || "Network error",
error.response?.status || 0, error.code); on any other error, throw
new APIError("Unknown error occurred", 0). -/
def sendMessage (net : NetworkOutcome) : SendOutcome :=
  match net with
  | .success data => .returned data
  | .axiosError msg status code =>
      .thrown { message := jsOrStr msg "Network error",
                statusCode := status.getD 0,
                code := code }
  | .otherError =>
      .thrown { message := "Unknown error occurred", statusCode := 0, code := none }

end chatAPI

/-- ChatMessage from the refactored ChatScreen: one exchange of the chat
history, with id Date.now().toString() and creation timestamp. -/
structure ChatMessage where
  id : String
  message : String
  response : String
  timestamp : Nat
deriving Repr, DecidableEq

/-- The ChatScreen component state: the input buffer (message), the
transient current response, the in-flight flag (isLoading) and the
ordered log (chatHistory). -/
structure ChatState where
  message : String
  currentResponse : String
  isLoading : Bool
  chatHistory : List ChatMessage
deriving Repr, DecidableEq

/-- Initial component state of ChatScreen (all useState initializers). -/
def initialState : ChatState :=
  { message := "", currentResponse := "", isLoading := false, chatHistory := [] }

/-- handleMessageChange / onChangeText: replace the input buffer. -/
def setInput (st : ChatState) (text : String) : ChatState :=
  { st with message := text }

/-- The placeholder substituted for a falsy reply field
(response.response || placeholder). -/
def placeholderText : String := "Risposta non disponibile"

/-- The synchronous prefix of handleSend, up to the awaited
chatAPI.sendMessage call: the validation guard (if the trimmed input is
empty, show an alert and return), then clear the input buffer and set
the loading flag. Returns the updated state and the trimmed message
handed to the Chat Client, none when validation rejected the submit and
no call is made (the Alert side effect is outside the modelled state). -/
def startSend (st : ChatState) : ChatState × Option String :=
  if jsTrim st.message = "" then (st, none)
  else ({ st with message := "", isLoading := true }, some (jsTrim st.message))

/-- The continuation of handleSend after the awaited call resolves, with
the clock reading now used for Date.now() and new Date(). On a returned
body: compute response.response || placeholder, set it as current
response and append the new ChatMessage. On a thrown error: every error
thrown by sendMessage is an APIError, so the instanceof branch applies
and the current response becomes getUserMessage() (console.error and
Alert are side effects outside the state). The finally branch resets the
loading flag on both paths. -/
def resolveSend (st : ChatState) (messageToSend : String)
    (outcome : SendOutcome) (now : Nat) : ChatState :=
  match outcome with
  | .returned resp =>
      let responseText := jsOrOpt resp.response placeholderText
      let newMessage : ChatMessage :=
        { id := natToString now, message := messageToSend,
          response := responseText, timestamp := now }
      { st with currentResponse := responseText,
                chatHistory := st.chatHistory ++ [newMessage],
                isLoading := false }
  | .thrown e =>
      { st with currentResponse := e.getUserMessage, isLoading := false }

/-- handleSend from the refactored ChatScreen as one atomic step; the
outcome of the network call and the clock reading are explicit
parameters. Returns the post state and the message actually sent to the
Chat Client (none when validation rejected the submit). -/
def handleSend (st : ChatState) (net : NetworkOutcome) (now : Nat) :
    ChatState × Option String :=
  match startSend st with
  | (st1, none) => (st1, none)
  | (st1, some m) => (resolveSend st1 m (chatAPI.sendMessage net) now, some m)

/-- A press of the send button: the send TouchableOpacity carries the
disabled flag bound to isLoading, so while a send is in flight the press
does not run handleSend at all. -/
def submit (st : ChatState) (net : NetworkOutcome) (now : Nat) :
    ChatState × Option String :=
  if st.isLoading then (st, none) else handleSend st net now

/-- A sequence of chat turns: for each (text, body, clock) triple the
user types the text into the input and presses send, and the endpoint
resolves successfully with the given body at the given clock reading. -/
def runSends (st : ChatState) : List (String × ChatResponse × Nat) → ChatState
  | [] => st
  | (m, resp, now) :: rest =>
      runSends (submit (setInput st m) (.success resp) now).1 rest

/-- The history entry created when a send of the given text resolves
successfully with the given body at clock reading now. -/
def mkEntry (text : String) (resp : ChatResponse) (now : Nat) : ChatMessage :=
  { id := natToString now, message := jsTrim text,
    response := jsOrOpt resp.response placeholderText, timestamp := now }

/-- Spec-side reply extraction, following claim C1 word for word: the
response equals the reply field of the body, with the literal
placeholder only when that field is absent. -/
def specReplyOf (resp : ChatResponse) : String :=
  match resp.response with
  | some r => r
  | none => placeholderText

/-- Claim C1 exactly as stated, as a predicate on one validated submit
that resolves successfully with the given body: the store gains exactly
one Exchange carrying the trimmed text and the spec-side reply, and the
current response equals that same reply. -/
def specC1Holds (st : ChatState) (body : ChatResponse) (now : Nat) : Prop :=
  (handleSend st (.success body) now).1.chatHistory
      = st.chatHistory
        ++ [{ id := natToString now, message := jsTrim st.message,
              response := specReplyOf body, timestamp := now }]
    ∧ (handleSend st (.success body) now).1.currentResponse = specReplyOf body

/-- Claim C5 exactly as stated, as a predicate on one network outcome:
the send operation does not throw for it. -/
def specC5NeverThrows (net : NetworkOutcome) : Prop :=
  (chatAPI.sendMessage net).isThrown = false

/-- Spec-side error kinds of the Error Classifier. -/
inductive ErrorKind where
  | Timeout
  | NetworkUnreachable
  | ServerFault
  | InvalidRequest
  | Unknown
deriving Repr, DecidableEq

/-- Spec-side classification, following claim C3 word for word: the
first matching rule in priority order — timeout flag, then no status
code, then status at least 500, then status in the 400s, otherwise
Unknown. Total by construction. -/
def specClassify (e : APIError) : ErrorKind :=
  if e.code = some "ECONNABORTED" then .Timeout
  else if e.statusCode = 0 then .NetworkUnreachable
  else if 500 ≤ e.statusCode then .ServerFault
  else if 400 ≤ e.statusCode ∧ e.statusCode < 500 then .InvalidRequest
  else .Unknown

/-- The fixed user-facing message paired with each error kind (the
pre-approved strings of the code). -/
def kindMessage : ErrorKind → String
  | .Timeout => "Timeout della richiesta. Riprova."
  | .NetworkUnreachable => "Impossibile connettersi al server."
  | .ServerFault => "Errore interno del server."
  | .InvalidRequest => "Richiesta non valida."
  | .Unknown => "Errore nel contatto con TAUROS."

/-! ## Supporting lemmas -/

theorem digitsVal_cons (d : Nat) (l : List Nat) :
    digitsVal (d :: l) = digitsVal l * 10 + d := rfl

theorem digitsVal_toDigitsRevFuel :
    ∀ fuel n, n ≤ fuel → digitsVal (toDigitsRevFuel fuel n) = n := by
  intro fuel
  induction fuel with
  | zero =>
    intro n h
    have hn : n = 0 := Nat.le_zero.mp h
    subst hn
    rfl
  | succ fuel ih =>
    intro n h
    cases n with
    | zero => rfl
    | succ k =>
      have hlt : (k + 1) / 10 < k + 1 := Nat.div_lt_self (Nat.succ_pos k) (by omega)
      have hle : (k + 1) / 10 ≤ fuel := by omega
      show digitsVal (((k + 1) % 10) :: toDigitsRevFuel fuel ((k + 1) / 10)) = k + 1
      rw [digitsVal_cons, ih _ hle]
      have := Nat.div_add_mod (k + 1) 10
      omega

theorem toDigitsRev_val (n : Nat) : digitsVal (toDigitsRev n) = n :=
  digitsVal_toDigitsRevFuel n n le_rfl

theorem toDigitsRevFuel_lt10 :
    ∀ fuel n d, d ∈ toDigitsRevFuel fuel n → d < 10 := by
  intro fuel
  induction fuel with
  | zero => intro n d hd; simp [toDigitsRevFuel] at hd
  | succ fuel ih =>
    intro n d hd
    cases n with
    | zero => simp [toDigitsRevFuel] at hd
    | succ k =>
      have hd' : d ∈ ((k + 1) % 10) :: toDigitsRevFuel fuel ((k + 1) / 10) := hd
      rcases List.mem_cons.mp hd' with h | h
      · subst h; exact Nat.mod_lt _ (by omega)
      · exact ih _ d h

theorem digitChar_inj_lt :
    ∀ a < 10, ∀ b < 10, Nat.digitChar a = Nat.digitChar b → a = b := by decide

theorem map_digitChar_inj :
    ∀ l₁ l₂ : List Nat, (∀ d ∈ l₁, d < 10) → (∀ d ∈ l₂, d < 10) →
      l₁.map Nat.digitChar = l₂.map Nat.digitChar → l₁ = l₂ := by
  intro l₁
  induction l₁ with
  | nil =>
    intro l₂ _ _ h
    cases l₂ with
    | nil => rfl
    | cons b t => simp at h
  | cons a t ih =>
    intro l₂ h₁ h₂ h
    cases l₂ with
    | nil => simp at h
    | cons b t₂ =>
      simp only [List.map_cons, List.cons.injEq] at h
      have hab := digitChar_inj_lt a (h₁ a (by simp)) b (h₂ b (by simp)) h.1
      have ht := ih t₂ (fun d hd => h₁ d (by simp [hd])) (fun d hd => h₂ d (by simp [hd])) h.2
      rw [hab, ht]

theorem natToString_inj (m n : Nat) (h : natToString m = natToString n) : m = n := by
  unfold natToString at h
  replace h : (if m = 0 then ['0'] else (toDigitsRev m).reverse.map Nat.digitChar)
      = (if n = 0 then ['0'] else (toDigitsRev n).reverse.map Nat.digitChar) :=
    congrArg String.data h
  have hrev : ∀ k : Nat, ∀ d ∈ (toDigitsRev k).reverse, d < 10 := fun k d hd =>
    toDigitsRevFuel_lt10 k k d (List.mem_reverse.mp hd)
  have hzero : ∀ k : Nat, k ≠ 0 →
      ['0'] ≠ (toDigitsRev k).reverse.map Nat.digitChar := by
    intro k hk hcontra
    have h0 : ([0] : List Nat).map Nat.digitChar
        = (toDigitsRev k).reverse.map Nat.digitChar := hcontra
    have hl := map_digitChar_inj [0] (toDigitsRev k).reverse
      (by intro d hd; simp at hd; omega) (hrev k) h0
    have hk' : toDigitsRev k = [0] := by
      have := congrArg List.reverse hl.symm
      simpa using this
    have hv := congrArg digitsVal hk'
    rw [toDigitsRev_val] at hv
    exact hk (by simpa [digitsVal] using hv)
  by_cases hm : m = 0 <;> by_cases hn : n = 0
  · omega
  · rw [if_pos hm, if_neg hn] at h
    exact absurd h (hzero n hn)
  · rw [if_neg hm, if_pos hn] at h
    exact absurd h.symm (hzero m hm)
  · rw [if_neg hm, if_neg hn] at h
    have hl := map_digitChar_inj _ _ (hrev m) (hrev n) h
    have hd : toDigitsRev m = toDigitsRev n := by
      have := congrArg List.reverse hl
      simpa using this
    have hv := congrArg digitsVal hd
    rw [toDigitsRev_val, toDigitsRev_val] at hv
    exact hv

theorem trimList_eq_nil (l : List Char) (h : ∀ c ∈ l, jsWs c = true) :
    trimList l = [] := by
  unfold trimList
  have h1 : l.dropWhile jsWs = [] := List.dropWhile_eq_nil_iff.mpr h
  rw [h1]
  rfl

theorem jsTrim_blank (s : String) (h : s = "" ∨ ∀ c ∈ s.data, jsWs c = true) :
    jsTrim s = "" := by
  rcases h with h | h
  · subst h; rfl
  · unfold jsTrim
    rw [trimList_eq_nil s.data h]

theorem handleSend_blank_eq (st : ChatState) (net : NetworkOutcome) (now : Nat)
    (h : jsTrim st.message = "") :
    handleSend st net now = (st, none) := by
  simp only [handleSend, startSend, if_pos h]

theorem handleSend_success_eq (st : ChatState) (body : ChatResponse) (now : Nat)
    (h : jsTrim st.message ≠ "") :
    handleSend st (.success body) now
      = ({ st with
            message := ""
            isLoading := false
            currentResponse := jsOrOpt body.response placeholderText
            chatHistory := st.chatHistory ++ [mkEntry st.message body now] },
         some (jsTrim st.message)) := by
  simp only [handleSend, startSend, if_neg h, chatAPI.sendMessage, resolveSend, mkEntry]

theorem handleSend_failure_eq (st : ChatState) (net : NetworkOutcome) (e : APIError)
    (now : Nat) (h : jsTrim st.message ≠ "") (hf : chatAPI.sendMessage net = .thrown e) :
    handleSend st net now
      = ({ st with
            message := ""
            isLoading := false
            currentResponse := e.getUserMessage },
         some (jsTrim st.message)) := by
  simp only [handleSend, startSend, if_neg h, hf, resolveSend]

theorem submit_not_loading (st : ChatState) (net : NetworkOutcome) (now : Nat)
    (h : st.isLoading = false) :
    submit st net now = handleSend st net now := by
  simp [submit, h]

theorem submit_history_extends (st : ChatState) (net : NetworkOutcome) (now : Nat) :
    st.chatHistory <+: (submit st net now).1.chatHistory := by
  unfold submit
  by_cases hL : st.isLoading
  · rw [if_pos hL]
  · rw [if_neg hL]
    by_cases hb : jsTrim st.message = ""
    · rw [handleSend_blank_eq st net now hb]
    · cases net with
      | success body =>
        rw [handleSend_success_eq st body now hb]
        exact ⟨[mkEntry st.message body now], rfl⟩
      | axiosError msg status code =>
        rw [handleSend_failure_eq st (.axiosError msg status code)
          ⟨jsOrStr msg "Network error", status.getD 0, code⟩ now hb rfl]
      | otherError =>
        rw [handleSend_failure_eq st .otherError
          ⟨"Unknown error occurred", 0, none⟩ now hb rfl]

theorem runSends_history :
    ∀ (sends : List (String × ChatResponse × Nat)) (st : ChatState),
      st.isLoading = false → (∀ s ∈ sends, jsTrim s.1 ≠ "") →
      (runSends st sends).chatHistory
          = st.chatHistory ++ sends.map (fun s => mkEntry s.1 s.2.1 s.2.2)
        ∧ (runSends st sends).isLoading = false := by
  intro sends
  induction sends with
  | nil =>
    intro st hL _
    exact ⟨by simp [runSends], by simpa [runSends] using hL⟩
  | cons s rest ih =>
    intro st hL hv
    obtain ⟨m, resp, now⟩ := s
    have hm : jsTrim m ≠ "" := hv (m, resp, now) (List.mem_cons_self _ _)
    have hstep : (submit (setInput st m) (.success resp) now).1
        = { st with
              message := ""
              isLoading := false
              currentResponse := jsOrOpt resp.response placeholderText
              chatHistory := st.chatHistory ++ [mkEntry m resp now] } := by
      rw [submit_not_loading _ _ _ (by simpa [setInput] using hL)]
      rw [handleSend_success_eq (setInput st m) resp now (by simpa [setInput] using hm)]
      rfl
    simp only [runSends]
    rw [hstep]
    obtain ⟨h1, h2⟩ := ih
      { st with
          message := ""
          isLoading := false
          currentResponse := jsOrOpt resp.response placeholderText
          chatHistory := st.chatHistory ++ [mkEntry m resp now] }
      rfl (fun s hs => hv s (List.mem_cons_of_mem _ hs))
    refine ⟨?_, h2⟩
    rw [h1]
    simp

/-! ## Claims -/

/-- Claim C1 fails as stated: for a successful body whose reply field is
present but equal to the empty string, the code substitutes the literal
placeholder, while the claim requires the response to equal the reply
field. Concrete input: submit "Hi" with the endpoint resolving a body
whose response field is the empty string, at clock 42. -/
theorem C1_counterexample :
    ¬ specC1Holds ⟨"Hi", "", false, []⟩ ⟨some "", none⟩ 42 := by
  unfold specC1Holds
  decide

/-- Claim C1 (amended): for every submitted text that passes validation
and for which the outbound call succeeds with a reply body, the
conversation store gains exactly one new Exchange whose message equals
the submitted (trimmed) text and whose response equals the reply field
of the body — with the literal placeholder substituted when that field
is absent or the empty string — and the current response is set to that
same response value (the input buffer is also cleared and the loading
flag reset). -/
theorem C1_success_appends_exchange (st : ChatState) (body : ChatResponse) (now : Nat)
    (h : jsTrim st.message ≠ "") :
    handleSend st (.success body) now
      = ({ st with
            message := ""
            isLoading := false
            currentResponse := jsOrOpt body.response placeholderText
            chatHistory := st.chatHistory ++ [mkEntry st.message body now] },
         some (jsTrim st.message)) :=
  handleSend_success_eq st body now h

/-- Witness for C1 (amended): submitting "Hello" with the endpoint
resolving a body with reply "Va bene." at clock 7 appends exactly that
Exchange and shows it as the current response. -/
theorem C1_success_appends_exchange_witness :
    handleSend ⟨"Hello", "", false, []⟩ (.success ⟨some "Va bene.", none⟩) 7
      = (⟨"", "Va bene.", false, [⟨"7", "Hello", "Va bene.", 7⟩]⟩, some "Hello") := by
  have h := C1_success_appends_exchange ⟨"Hello", "", false, []⟩ ⟨some "Va bene.", none⟩ 7
    (by decide)
  rw [h]
  decide

/-- Claim C2: for every submitted text that passes validation and for
which the outbound call fails, the current response is set to the
user-facing message of the classified error, no Exchange is appended,
and the history is exactly what it was before the submit. -/
theorem C2_failure_sets_error_keeps_history (st : ChatState) (net : NetworkOutcome)
    (e : APIError) (now : Nat)
    (h : jsTrim st.message ≠ "") (hf : chatAPI.sendMessage net = .thrown e) :
    (handleSend st net now).1.currentResponse = e.getUserMessage
    ∧ (handleSend st net now).1.chatHistory = st.chatHistory := by
  rw [handleSend_failure_eq st net e now h hf]
  exact ⟨rfl, rfl⟩

/-- Witness for C2: submitting "Test" when the endpoint times out sets
the current response to the timeout user message and leaves the history
empty. -/
theorem C2_failure_sets_error_keeps_history_witness :
    (handleSend ⟨"Test", "", false, []⟩
        (.axiosError "timeout of 30000ms exceeded" none (some "ECONNABORTED")) 3).1.currentResponse
      = APIError.getUserMessage ⟨"timeout of 30000ms exceeded", 0, some "ECONNABORTED"⟩
    ∧ (handleSend ⟨"Test", "", false, []⟩
        (.axiosError "timeout of 30000ms exceeded" none (some "ECONNABORTED")) 3).1.chatHistory
      = [] :=
  C2_failure_sets_error_keeps_history ⟨"Test", "", false, []⟩ _ _ 3 (by decide) rfl

/-- Claim C3: the Error Classifier maps every failed call to exactly one
kind by the first matching rule in priority order — timeout flag, then
missing status, then status at least 500, then status in the 400s, then
Unknown — and getUserMessage returns exactly the fixed message paired
with that kind; specClassify is a total function, so no input is left
unclassified. -/
theorem C3_classifier_first_match (e : APIError) :
    APIError.getUserMessage e = kindMessage (specClassify e) := by
  unfold APIError.getUserMessage specClassify
  simp only [APIError.isTimeoutError, APIError.isNetworkError, APIError.isServerError,
    APIError.isClientError, beq_iff_eq, Bool.and_eq_true, decide_eq_true_eq]
  split_ifs <;> rfl

/-- Claim C4: an input that is empty or consists only of whitespace is
rejected before any Chat Client call: the client is not invoked and the
component state — send flag, history, the entire store — is unchanged. -/
theorem C4_blank_input_rejected (st : ChatState) (net : NetworkOutcome) (now : Nat)
    (h : st.message = "" ∨ ∀ c ∈ st.message.data, jsWs c = true) :
    handleSend st net now = (st, none) :=
  handleSend_blank_eq st net now (jsTrim_blank st.message h)

/-- Witness for C4: a whitespace-only input is rejected with no state
change and no client call. -/
theorem C4_blank_input_rejected_witness :
    handleSend ⟨"   ", "resp", false, []⟩ (.success ⟨some "ok", none⟩) 9
      = (⟨"   ", "resp", false, []⟩, none) :=
  C4_blank_input_rejected ⟨"   ", "resp", false, []⟩ (.success ⟨some "ok", none⟩) 9
    (Or.inr (by decide))

/-- Claim C5 fails as stated: the send operation of the Chat Client does
throw for an expected network failure — concretely, for a timed-out call
it raises an APIError instead of returning a Result value. -/
theorem C5_counterexample :
    ¬ specC5NeverThrows
        (.axiosError "timeout of 30000ms exceeded" none (some "ECONNABORTED")) := by
  unfold specC5NeverThrows
  decide

/-- Claim C5 (amended): for every expected network failure, sendMessage
throws a classified APIError — never a raw transport error and never a
normal return — while every resolved call returns the body normally; the
caller therefore receives every failure as a caught, classified APIError
value. -/
theorem C5_failures_throw_classified_apierror :
    (∀ msg status code, chatAPI.sendMessage (.axiosError msg status code)
        = .thrown ⟨jsOrStr msg "Network error", status.getD 0, code⟩)
    ∧ chatAPI.sendMessage .otherError = .thrown ⟨"Unknown error occurred", 0, none⟩
    ∧ ∀ data, chatAPI.sendMessage (.success data) = .returned data :=
  ⟨fun _ _ _ => rfl, rfl, fun _ => rfl⟩

/-- Claim C6: starting from the empty store, any sequence of N successful
sends yields a log with exactly N entries carrying the submitted
(trimmed) texts in submission order; when the clock readings are
nondecreasing, so are the entry timestamps; and no single operation — a
send-button press (any outcome) or an input change — ever mutates,
reorders or removes an existing entry: the prior history is always a
prefix of the new one. -/
theorem C6_history_append_only (sends : List (String × ChatResponse × Nat))
    (hv : ∀ s ∈ sends, jsTrim s.1 ≠ "")
    (hmono : List.Chain' (· ≤ ·) (sends.map (fun s => s.2.2))) :
    ((runSends initialState sends).chatHistory.length = sends.length
      ∧ (runSends initialState sends).chatHistory.map (fun x => x.message)
          = sends.map (fun s => jsTrim s.1)
      ∧ List.Chain' (· ≤ ·)
          ((runSends initialState sends).chatHistory.map (fun x => x.timestamp)))
    ∧ (∀ st net now, st.chatHistory <+: (submit st net now).1.chatHistory)
    ∧ ∀ st text, (setInput st text).chatHistory = st.chatHistory := by
  obtain ⟨h1, _⟩ := runSends_history sends initialState rfl hv
  have hist : (runSends initialState sends).chatHistory
      = sends.map (fun s => mkEntry s.1 s.2.1 s.2.2) := by
    simpa [initialState] using h1
  refine ⟨⟨?_, ?_, ?_⟩, fun st net now => submit_history_extends st net now,
    fun st text => rfl⟩
  · rw [hist, List.length_map]
  · rw [hist, List.map_map]
    rfl
  · rw [hist, List.map_map]
    exact hmono

/-- Witness for C6: two successful sends at clocks 3 and 5 produce the
two submitted messages in order with nondecreasing timestamps, and the
empty history is a prefix of the history after a send. -/
theorem C6_history_append_only_witness :
    ((runSends initialState
        [("Hi", ⟨some "a", none⟩, 3), ("Yo", ⟨some "b", none⟩, 5)]).chatHistory.length = 2
      ∧ (runSends initialState
          [("Hi", ⟨some "a", none⟩, 3), ("Yo", ⟨some "b", none⟩, 5)]).chatHistory.map
            (fun x => x.message) = ["Hi", "Yo"]
      ∧ List.Chain' (· ≤ ·)
          ((runSends initialState
            [("Hi", ⟨some "a", none⟩, 3), ("Yo", ⟨some "b", none⟩, 5)]).chatHistory.map
              (fun x => x.timestamp)))
    ∧ initialState.chatHistory <+:
        (submit initialState (.success ⟨some "a", none⟩) 3).1.chatHistory := by
  have h := C6_history_append_only
    [("Hi", ⟨some "a", none⟩, 3), ("Yo", ⟨some "b", none⟩, 5)] (by decide) (by simp)
  exact ⟨h.1, h.2.1 initialState (.success ⟨some "a", none⟩) 3⟩

/-- Claim C7: while a send is in flight (the loading flag is set, the
Sending state), a press of the send button is rejected outright: the
handler does not run, no state changes, nothing is queued, and the Chat
Client is not invoked. -/
theorem C7_sending_blocks_submit (st : ChatState) (net : NetworkOutcome) (now : Nat)
    (h : st.isLoading = true) :
    submit st net now = (st, none) := by
  simp [submit, h]

/-- Witness for C7: a second submit while loading leaves the state
untouched and performs no call. -/
theorem C7_sending_blocks_submit_witness :
    submit ⟨"queued text", "", true, []⟩ (.success ⟨some "ok", none⟩) 11
      = (⟨"queued text", "", true, []⟩, none) :=
  C7_sending_blocks_submit ⟨"queued text", "", true, []⟩ (.success ⟨some "ok", none⟩) 11 rfl

/-- Claim C8 fails as stated: ids are the decimal rendering of the
creation clock reading (Date.now), so two sends whose requests resolve at
the same millisecond produce two distinct log entries with equal ids.
Concrete input: two successful sends both resolving at clock 5. -/
theorem C8_counterexample :
    ¬ ((runSends initialState
        [("a", ⟨some "r1", none⟩, 5), ("b", ⟨some "r2", none⟩, 5)]).chatHistory.Pairwise
          (fun a b => a.id ≠ b.id)) := by
  decide

/-- Claim C8 (amended): every Exchange id is derived from the creation
clock reading, so ids are unique across the log provided no two
exchanges are created at the same clock reading: for any successful run
whose clock values are pairwise distinct, the log entries have pairwise
distinct ids. -/
theorem C8_ids_unique_of_distinct_clocks (sends : List (String × ChatResponse × Nat))
    (hv : ∀ s ∈ sends, jsTrim s.1 ≠ "")
    (hd : (sends.map (fun s => s.2.2)).Pairwise (fun a b => a ≠ b)) :
    (runSends initialState sends).chatHistory.Pairwise (fun a b => a.id ≠ b.id) := by
  obtain ⟨h1, _⟩ := runSends_history sends initialState rfl hv
  have hist : (runSends initialState sends).chatHistory
      = sends.map (fun s => mkEntry s.1 s.2.1 s.2.2) := by
    simpa [initialState] using h1
  rw [hist, List.pairwise_map]
  rw [List.pairwise_map] at hd
  refine hd.imp ?_
  intro a b hne heq
  exact hne (natToString_inj _ _ heq)

/-- Witness for C8 (amended): two successful sends at distinct clocks 3
and 9 produce entries with distinct ids. -/
theorem C8_ids_unique_of_distinct_clocks_witness :
    (runSends initialState
        [("Hi", ⟨some "a", none⟩, 3), ("Yo", ⟨some "b", none⟩, 9)]).chatHistory.Pairwise
      (fun a b => a.id ≠ b.id) :=
  C8_ids_unique_of_distinct_clocks
    [("Hi", ⟨some "a", none⟩, 3), ("Yo", ⟨some "b", none⟩, 9)] (by decide) (by decide)

/-- Claim C9: a successful call whose body carries the reply field with
the empty string as its value yields the placeholder text — both as the
current response and as the response of the appended Exchange — because
the placeholder substitutes for any falsy reply value, not only an
absent field. -/
theorem C9_empty_reply_uses_placeholder (st : ChatState) (ts : Option String) (now : Nat)
    (h : jsTrim st.message ≠ "") :
    (handleSend st (.success ⟨some "", ts⟩) now).1.currentResponse = placeholderText
    ∧ (handleSend st (.success ⟨some "", ts⟩) now).1.chatHistory
        = st.chatHistory
          ++ [⟨natToString now, jsTrim st.message, placeholderText, now⟩] := by
  rw [handleSend_success_eq st ⟨some "", ts⟩ now h]
  exact ⟨rfl, rfl⟩

/-- Witness for C9: submitting "Ping" when the endpoint resolves a body
with an empty reply string stores and shows the placeholder. -/
theorem C9_empty_reply_uses_placeholder_witness :
    (handleSend ⟨"Ping", "", false, []⟩ (.success ⟨some "", none⟩) 4).1.currentResponse
        = placeholderText
    ∧ (handleSend ⟨"Ping", "", false, []⟩ (.success ⟨some "", none⟩) 4).1.chatHistory
        = [] ++ [⟨natToString 4, jsTrim "Ping", placeholderText, 4⟩] :=
  C9_empty_reply_uses_placeholder ⟨"Ping", "", false, []⟩ none 4 (by decide)

/-- Claim C10: for every submit that passes validation, the input buffer
is cleared at submit time, before the network call resolves (already
after the synchronous prefix of handleSend); the resolution step never
writes the buffer; and after the full send — success or failure alike —
the buffer is still empty, so the submitted text is not restored on
failure. -/
theorem C10_input_cleared_at_submit (st : ChatState) (h : jsTrim st.message ≠ "") :
    (startSend st).1.message = ""
    ∧ (∀ st2 m outcome now, (resolveSend st2 m outcome now).message = st2.message)
    ∧ ∀ net now, (handleSend st net now).1.message = "" := by
  refine ⟨?_, ?_, ?_⟩
  · unfold startSend
    rw [if_neg h]
  · intro st2 m outcome now
    cases outcome <;> rfl
  · intro net now
    have hh : (handleSend st net now).1
        = resolveSend { st with message := "", isLoading := true }
            (jsTrim st.message) (chatAPI.sendMessage net) now := by
      unfold handleSend startSend
      rw [if_neg h]
    rw [hh]
    cases chatAPI.sendMessage net <;> rfl

/-- Witness for C10: after starting a send of "Hello" the buffer is
empty; a failing resolution leaves the buffer untouched; and after the
whole failed send the buffer is still empty. -/
theorem C10_input_cleared_at_submit_witness :
    (startSend ⟨"Hello", "", false, []⟩).1.message = ""
    ∧ (resolveSend ⟨"", "x", true, []⟩ "Hello"
        (.thrown ⟨"boom", 500, none⟩) 6).message = ""
    ∧ (handleSend ⟨"Hello", "", false, []⟩
        (.axiosError "boom" (some 500) none) 6).1.message = "" := by
  have h := C10_input_cleared_at_submit ⟨"Hello", "", false, []⟩ (by decide)
  exact ⟨h.1, h.2.1 ⟨"", "x", true, []⟩ "Hello" (.thrown ⟨"boom", 500, none⟩) 6,
    h.2.2 (.axiosError "boom" (some 500) none) 6⟩

end NEABot
